import Mathlib

/-!
Verification of the Drug Interaction Analysis Engine of the PresCore
clinical-prescription application (src/app.py, class AIAnalyzer).

The engine consists of:
  * medication enrichment (`get_enhanced_medication_data`, app.py lines 706-757),
  * the external-reasoning client (`analyze_drug_interactions`, lines 759-956), and
  * the deterministic fallback rule engine (`_enhanced_fallback_analysis`,
    lines 958-1068).

This file is a shallow embedding of those three functions.  The medication
catalog (an SQLite table queried with `LIKE '%name%' LIMIT 1`) and the JSON
parser (`json.loads`) are external collaborators and are modelled as function
parameters; the rest is transliterated from the Python source.  Fallible
operations (a catalog query that can raise, the Python `IndexError` on
`medications[0]`) are modelled with `Except`/`Option`.
-/

/-- Python truthiness for an optional string field: `x or default`.
`None` and the empty string are falsy (pandas returns `None` for SQL NULL). -/
def pyOr (a : Option String) (b : String) : String :=
  match a with
  | none => b
  | some s => if s = "" then b else s

/-- `containsSub needle hay`: does `needle` occur contiguously inside `hay`?
This is Python's substring test `needle in hay` on character lists. -/
def containsSub (needle : List Char) : List Char → Bool
  | [] => needle.isEmpty
  | c :: rest => needle.isPrefixOf (c :: rest) || containsSub needle rest

/-- Python's `needle in haystack` on strings (substring containment). -/
def strContains (haystack needle : String) : Bool :=
  containsSub needle.data haystack.data

/-- Python's `str.lower()` on the ASCII repertoire (all names and allergy
texts in the program are ASCII).  Defined by structural recursion over the
character list so that concrete instances reduce definitionally
(`String.toLower` is defined by well-founded recursion and does not). -/
def pyLower (s : String) : String :=
  String.mk (s.data.map Char.toLower)

/-- One prescribed medication line item, as passed to the engine:
`{'name': ..., 'dosage': ..., 'frequency': ..., 'duration'?: ...}`
(`duration` is read with `med_item.get('duration', 'Not specified')`). -/
structure MedItem where
  name : String
  dosage : String
  frequency : String
  duration : Option String
deriving Repr, DecidableEq

/-- One row of the `medications` catalog table, as selected by
`SELECT name, generic_name, drug_class, contraindications, interactions,
side_effects, indications FROM medications WHERE name LIKE ? OR generic_name
LIKE ? LIMIT 1`.  All columns but `name` are nullable. -/
structure MedRow where
  name : String
  generic_name : Option String
  drug_class : Option String
  contraindications : Option String
  interactions : Option String
  side_effects : Option String
  indications : Option String
deriving Repr, DecidableEq

/-- An enriched medication record, as built by
`AIAnalyzer.get_enhanced_medication_data` (app.py lines 728-753). -/
structure EnhancedMed where
  name : String
  generic_name : String
  drug_class : String
  dosage : String
  frequency : String
  duration : String
  known_interactions : String
  contraindications : String
  indications : String
deriving Repr, DecidableEq

/-- The patient-context dictionary.  The fallback engine reads only
`patient_info.get('allergies', '')`; the other fields are used verbatim in
the AI prompt text and never influence any structured output. -/
structure PatientInfo where
  age : Option String := none
  gender : Option String := none
  allergies : Option String := none
  medical_conditions : Option String := none
  diagnosis : Option String := none
  current_problems : Option String := none
  vital_signs : Option String := none
  general_notes : Option String := none
deriving Repr, DecidableEq

/-- Characters of `hay` strictly before the first occurrence of `sep`;
all of `hay` when `sep` does not occur. -/
def takeUntilSub (sep : List Char) : List Char → List Char
  | [] => []
  | c :: rest =>
    if sep.isPrefixOf (c :: rest) then [] else c :: takeUntilSub sep rest

/-- `med_name = med_item['name'].split(' (')[0] if ' (' in med_item['name']
else med_item['name']` (app.py line 715): strip a trailing strength
parenthetical from the medication name to get the catalog lookup key. -/
def stripStrength (name : String) : String :=
  String.mk (takeUntilSub " (".data name.data)

/-- Build one enriched record from a prescribed item and the catalog row the
query returned (`None` = empty query result), app.py lines 727-752. -/
def enrichRow (med : MedItem) (row : Option MedRow) : EnhancedMed :=
  match row with
  | some info =>
    { name := med.name
      generic_name := pyOr info.generic_name (stripStrength med.name)
      drug_class := pyOr info.drug_class "Unknown"
      dosage := med.dosage
      frequency := med.frequency
      duration := med.duration.getD "Not specified"
      known_interactions := pyOr info.interactions "None documented"
      contraindications := pyOr info.contraindications "None documented"
      indications := pyOr info.indications "Not specified" }
  | none =>
    { name := med.name
      generic_name := stripStrength med.name
      drug_class := "Unknown"
      dosage := med.dosage
      frequency := med.frequency
      duration := med.duration.getD "Not specified"
      known_interactions := "Database not available"
      contraindications := "Database not available"
      indications := "Not specified" }

/-- `AIAnalyzer.get_enhanced_medication_data` (app.py lines 706-757), with
the catalog query abstracted as `lookup : String → Option MedRow` (first row
matching the SQL `LIKE`-query, or `none` when the result set is empty).
The Python loop appends one record per input item, in order. -/
def get_enhanced_medication_data (lookup : String → Option MedRow) :
    List MedItem → List EnhancedMed
  | [] => []
  | m :: ms =>
    enrichRow m (lookup (stripStrength m.name)) ::
      get_enhanced_medication_data lookup ms

/-- `get_enhanced_medication_data` with a catalog query that can raise
(`pd.read_sql` over a live connection).  The Python body has no
`try`/`except`, so an exception at any item propagates and aborts the whole
loop; this is the `Except.error` case. -/
def get_enhanced_medication_dataE
    (lookupE : String → Except Unit (Option MedRow)) :
    List MedItem → Except Unit (List EnhancedMed)
  | [] => Except.ok []
  | m :: ms =>
    match lookupE (stripStrength m.name) with
    | Except.error e => Except.error e
    | Except.ok row =>
      match get_enhanced_medication_dataE lookupE ms with
      | Except.error e => Except.error e
      | Except.ok rest => Except.ok (enrichRow m row :: rest)

/-- One entry of the fallback result's `interactions` list
(app.py lines 1001-1008 and 1012-1018). -/
structure InteractionEntry where
  drugs : List String
  drug_classes : List String
  severity : String
  description : String
  recommendation : String
deriving Repr, DecidableEq

/-- One entry of the fallback result's `allergies` list
(app.py lines 1026-1040). -/
structure AllergyEntry where
  drug : String
  allergy : String
  risk : String
deriving Repr, DecidableEq

/-- One entry of the fallback result's `drug_class_analysis` list
(app.py lines 1045-1050). -/
structure DrugClassAnalysisEntry where
  drug_class : String
  medications_in_class : List String
  interaction_potential : String
  clinical_notes : String
deriving Repr, DecidableEq

/-- Element shape for the `contraindications` list (the canonical schema of
the AI prompt, app.py lines 869-875); the fallback never constructs one. -/
structure ContraindicationEntry where
  drug : String
  condition : String
  risk : String
  severity : String
  alternative : String
deriving Repr, DecidableEq

/-- Element shape for the `monitoring` list (AI prompt schema, app.py lines
893-898); the fallback never constructs one. -/
structure MonitoringEntry where
  parameter : String
  frequency : String
  reason : String
  baseline_value : String
deriving Repr, DecidableEq

/-- Element shape for the `alternatives` list (always the literal `[]` in
the fallback result, app.py line 1056). -/
structure AlternativeEntry where
  drug : String
  alternative : String
deriving Repr, DecidableEq

/-- The `analysis_metadata` dictionary of the fallback result
(app.py lines 1062-1067). -/
structure FallbackMetadata where
  analysis_type : String
  api_provider : String
  medications_analyzed : Nat
  drug_classes_identified : Nat
deriving Repr, DecidableEq

/-- The dictionary returned by `AIAnalyzer._enhanced_fallback_analysis`
(app.py lines 1053-1068), field for field. -/
structure FallbackResult where
  interactions : List InteractionEntry
  allergies : List AllergyEntry
  contraindications : List ContraindicationEntry
  alternatives : List AlternativeEntry
  monitoring : List MonitoringEntry
  drug_class_analysis : List DrugClassAnalysisEntry
  overall_risk : String
  summary : String
  analysis_metadata : FallbackMetadata
deriving Repr, DecidableEq

/-- Value of one `class_interactions` table entry (app.py lines 977-992). -/
structure ClassInteractionInfo where
  severity : String
  description : String
  recommendation : String
deriving Repr, DecidableEq

/-- The fixed `class_interactions` dictionary (app.py lines 977-992), keyed
by the tuple exactly as written in the source.  Note the second key is the
literal `('Anticoagulant', 'Anti-inflammatory')`, which is not in sorted
order (`'-' < 'c'` in code points), while lookups use the sorted pair. -/
def class_interactions (key : String × String) : Option ClassInteractionInfo :=
  if key = ("ACE Inhibitor", "Potassium") then
    some { severity := "major"
           description := "Risk of hyperkalemia"
           recommendation := "Monitor potassium levels closely" }
  else if key = ("Anticoagulant", "Anti-inflammatory") then
    some { severity := "major"
           description := "Increased bleeding risk"
           recommendation := "Consider gastroprotection, monitor INR/bleeding" }
  else if key = ("Beta Blocker", "Calcium Channel Blocker") then
    some { severity := "moderate"
           description := "Enhanced hypotensive effect"
           recommendation := "Monitor blood pressure carefully" }
  else none

/-- Python's `<` on strings: strict lexicographic comparison by code point.
Defined by structural recursion over the character lists so that concrete
comparisons reduce. -/
def pyStrLt : List Char → List Char → Bool
  | [], [] => false
  | [], _ :: _ => true
  | _ :: _, [] => false
  | a :: as, b :: bs =>
    if a.toNat < b.toNat then true
    else if b.toNat < a.toNat then false
    else pyStrLt as bs

/-- Python's `tuple(sorted([a, b]))` for two strings: swap exactly when
`b < a` (the two-element sort is stable). -/
def sortPair (a b : String) : String × String :=
  if pyStrLt b.data a.data then (b, a) else (a, b)

/-- Body of the inner double loop (app.py lines 995-1008): one `i < j` pair
of enriched medications yields an interaction entry when both classes are
known and the sorted class pair is a key of `class_interactions`. -/
def pairInteraction (m1 m2 : EnhancedMed) : Option InteractionEntry :=
  if m1.drug_class ≠ "Unknown" ∧ m2.drug_class ≠ "Unknown" then
    match class_interactions (sortPair m1.drug_class m2.drug_class) with
    | some info =>
      some { drugs := [m1.name, m2.name]
             drug_classes := [m1.drug_class, m2.drug_class]
             severity := info.severity
             description := info.description
             recommendation := info.recommendation }
    | none => none
  else none

/-- The class-pair interaction scan over all `i < j` index pairs, in loop
order (app.py lines 995-1008).  Entries are appended as found; there is no
dedup of repeated class pairs in the source. -/
def classPairInteractions : List EnhancedMed → List InteractionEntry
  | [] => []
  | m :: rest => rest.filterMap (pairInteraction m) ++ classPairInteractions rest

/-- The named-drug rule (app.py lines 1011-1018): `'warfarin' in med_names`
is a *list membership* test on the lowercased names, while the
aspirin/ibuprofen test is a substring test on each name. -/
def warfarinInteractions (med_names : List String) : List InteractionEntry :=
  if med_names.contains "warfarin" &&
      med_names.any (fun n => strContains n "aspirin" || strContains n "ibuprofen") then
    [{ drugs := ["Warfarin", "Aspirin/NSAIDs"]
       drug_classes := ["Anticoagulant", "Anti-inflammatory"]
       severity := "major"
       description := "Increased bleeding risk due to additive anticoagulant effects"
       recommendation := "Monitor INR closely, consider gastroprotection" }]
  else []

/-- Allergy records produced for one medication (app.py lines 1024-1040):
a penicillin-family check and a sulfa check, each appending at most one
entry, in source order. -/
def allergyEntriesFor (patient_allergies : String) (med : EnhancedMed) :
    List AllergyEntry :=
  (if strContains patient_allergies "penicillin" &&
      (["penicillin", "amoxicillin", "ampicillin"].any
        (fun t => strContains (pyLower med.name) t)) then
    [{ drug := med.name
       allergy := "Penicillin"
       risk := "Potential allergic reaction - contraindicated" }]
  else []) ++
  (if strContains patient_allergies "sulfa" &&
      (strContains (pyLower med.name) "sulfa" ||
        strContains (pyLower med.name) "sulfamethoxazole") then
    [{ drug := med.name
       allergy := "Sulfa drugs"
       risk := "Potential allergic reaction - contraindicated" }]
  else [])

/-- The allergy cross-check loop over all medications (app.py lines 1024-1040). -/
def allergyChecks (patient_allergies : String) (meds : List EnhancedMed) :
    List AllergyEntry :=
  meds.flatMap (allergyEntriesFor patient_allergies)

/-- Duplicate removal keeping first occurrences, with `seen` accumulator.
Models `list(set(...))` in app.py line 1043; CPython's set iteration order
is implementation-defined and no property proved here depends on the order,
only on the multiset of elements and the length. -/
def dedupFirstAux (seen : List String) : List String → List String
  | [] => []
  | c :: rest =>
    if seen.contains c then dedupFirstAux seen rest
    else c :: dedupFirstAux (c :: seen) rest

/-- `list(set(l))`, see `dedupFirstAux`. -/
def dedupFirst (l : List String) : List String :=
  dedupFirstAux [] l

/-- The body of `AIAnalyzer._enhanced_fallback_analysis` after the input has
been enriched (app.py lines 960-1068): class-pair scan, named-drug rule,
allergy cross-check, drug-class roll-up, risk string, summary, metadata. -/
def fallbackCore (enhanced_medications : List EnhancedMed)
    (patient_info : PatientInfo) : FallbackResult :=
  let med_names := enhanced_medications.map (fun m => pyLower m.name)
  let interactions :=
    classPairInteractions enhanced_medications ++ warfarinInteractions med_names
  let patient_allergies := pyLower (patient_info.allergies.getD "")
  let allergies := allergyChecks patient_allergies enhanced_medications
  let drug_classes := enhanced_medications.map (fun m => m.drug_class)
  let unique_classes := dedupFirst (drug_classes.filter (fun c => c ≠ "Unknown"))
  let drug_class_analysis := unique_classes.map (fun dc =>
    { drug_class := dc
      medications_in_class :=
        (enhanced_medications.filter (fun m => m.drug_class = dc)).map
          (fun m => m.name)
      interaction_potential := "moderate"
      clinical_notes := "Monitor for class-specific effects of " ++ dc })
  { interactions := interactions
    allergies := allergies
    contraindications := []
    alternatives := []
    monitoring := []
    drug_class_analysis := drug_class_analysis
    overall_risk :=
      if interactions.isEmpty && allergies.isEmpty then "low" else "moderate"
    summary :=
      "Enhanced analysis completed. Found " ++ toString interactions.length ++
        " interactions, " ++ toString allergies.length ++
        " allergy concerns, and analyzed " ++ toString unique_classes.length ++
        " drug classes."
    analysis_metadata :=
      { analysis_type := "fallback"
        api_provider := "groq"
        medications_analyzed := enhanced_medications.length
        drug_classes_identified := unique_classes.length } }

/-- The argument of `_enhanced_fallback_analysis`: either raw prescribed
items (must still be enriched; the dicts lack a `'drug_class'` key) or
already-enriched records.  These are the two shapes the callers pass. -/
inductive FallbackInput where
  | raw (meds : List MedItem)
  | enriched (meds : List EnhancedMed)
deriving Repr

/-- `AIAnalyzer._enhanced_fallback_analysis` (app.py lines 958-1068).  The
guard `isinstance(medications[0], dict) and 'drug_class' not in
medications[0]` evaluates `medications[0]` first, so an empty medication
list raises `IndexError`; that uncaught exception is the `none` case. -/
def enhanced_fallback_analysis (lookup : String → Option MedRow) :
    FallbackInput → PatientInfo → Option FallbackResult
  | FallbackInput.raw [], _ => none
  | FallbackInput.enriched [], _ => none
  | FallbackInput.raw (m :: ms), p =>
    some (fallbackCore (get_enhanced_medication_data lookup (m :: ms)) p)
  | FallbackInput.enriched (m :: ms), p => some (fallbackCore (m :: ms) p)

/-- A small JSON value type used to state facts about the dictionary shape
of results (which keys are present, and with what kind of value). -/
inductive JVal where
  | str : String → JVal
  | nat : Nat → JVal
  | arr : List JVal → JVal
  | obj : List (String × JVal) → JVal
deriving Repr

/-- The `interactions[]` entry as the Python dict literal builds it. -/
def InteractionEntry.toDict (e : InteractionEntry) : List (String × JVal) :=
  [("drugs", JVal.arr (e.drugs.map JVal.str)),
   ("drug_classes", JVal.arr (e.drug_classes.map JVal.str)),
   ("severity", JVal.str e.severity),
   ("description", JVal.str e.description),
   ("recommendation", JVal.str e.recommendation)]

/-- The `allergies[]` entry as the Python dict literal builds it. -/
def AllergyEntry.toDict (e : AllergyEntry) : List (String × JVal) :=
  [("drug", JVal.str e.drug),
   ("allergy", JVal.str e.allergy),
   ("risk", JVal.str e.risk)]

/-- The `drug_class_analysis[]` entry as the Python dict literal builds it. -/
def DrugClassAnalysisEntry.toDict (e : DrugClassAnalysisEntry) :
    List (String × JVal) :=
  [("drug_class", JVal.str e.drug_class),
   ("medications_in_class", JVal.arr (e.medications_in_class.map JVal.str)),
   ("interaction_potential", JVal.str e.interaction_potential),
   ("clinical_notes", JVal.str e.clinical_notes)]

/-- Dictionary shape of a `contraindications[]` entry (schema only; the
fallback list is always empty). -/
def ContraindicationEntry.toDict (e : ContraindicationEntry) :
    List (String × JVal) :=
  [("drug", JVal.str e.drug),
   ("condition", JVal.str e.condition),
   ("risk", JVal.str e.risk),
   ("severity", JVal.str e.severity),
   ("alternative", JVal.str e.alternative)]

/-- Dictionary shape of a `monitoring[]` entry (schema only). -/
def MonitoringEntry.toDict (e : MonitoringEntry) : List (String × JVal) :=
  [("parameter", JVal.str e.parameter),
   ("frequency", JVal.str e.frequency),
   ("reason", JVal.str e.reason),
   ("baseline_value", JVal.str e.baseline_value)]

/-- Dictionary shape of an `alternatives[]` entry (schema only). -/
def AlternativeEntry.toDict (e : AlternativeEntry) : List (String × JVal) :=
  [("drug", JVal.str e.drug),
   ("alternative", JVal.str e.alternative)]

/-- The fallback `analysis_metadata` dict, keys in source order
(app.py lines 1062-1067). -/
def FallbackMetadata.toDict (m : FallbackMetadata) : List (String × JVal) :=
  [("analysis_type", JVal.str m.analysis_type),
   ("api_provider", JVal.str m.api_provider),
   ("medications_analyzed", JVal.nat m.medications_analyzed),
   ("drug_classes_identified", JVal.nat m.drug_classes_identified)]

/-- The fallback result as the Python `return { ... }` dict literal of
app.py lines 1053-1068: exactly these nine keys, in source order. -/
def FallbackResult.toDict (r : FallbackResult) : List (String × JVal) :=
  [("interactions", JVal.arr (r.interactions.map (fun e => JVal.obj e.toDict))),
   ("allergies", JVal.arr (r.allergies.map (fun e => JVal.obj e.toDict))),
   ("contraindications",
     JVal.arr (r.contraindications.map (fun e => JVal.obj e.toDict))),
   ("alternatives", JVal.arr (r.alternatives.map (fun e => JVal.obj e.toDict))),
   ("monitoring", JVal.arr (r.monitoring.map (fun e => JVal.obj e.toDict))),
   ("drug_class_analysis",
     JVal.arr (r.drug_class_analysis.map (fun e => JVal.obj e.toDict))),
   ("overall_risk", JVal.str r.overall_risk),
   ("summary", JVal.str r.summary),
   ("analysis_metadata", JVal.obj r.analysis_metadata.toDict)]

/-- Python `str.strip()`: drop leading and trailing whitespace. -/
def pyStrip (l : List Char) : List Char :=
  ((l.dropWhile Char.isWhitespace).reverse.dropWhile Char.isWhitespace).reverse

/-- The backquote character (code point 96). -/
def backquote : Char := Char.ofNat 96

/-- The 7-character opening markdown fence followed by the word json. -/
def fenceJson : List Char := [backquote, backquote, backquote, 'j', 's', 'o', 'n']

/-- The 3-character markdown fence. -/
def fence : List Char := [backquote, backquote, backquote]

/-- Fence removal (app.py lines 927-931): drop a leading 7-character json
fence, then drop a trailing 3-character fence, each when present. -/
def stripFences (l : List Char) : List Char :=
  let l1 := if fenceJson.isPrefixOf l then l.drop 7 else l
  if fence.isSuffixOf l1 then l1.take (l1.length - 3) else l1

/-- Opening curly brace (code point 123). -/
def lbrace : Char := Char.ofNat 123

/-- Closing curly brace (code point 125). -/
def rbrace : Char := Char.ofNat 125

/-- JSON extraction from the raw model response (app.py lines 924-938):
strip, remove fences, then slice from the first opening brace to one past
the last closing brace; `none` when either brace is absent
(`start_idx == -1 or end_idx == 0` in the source). -/
def extract_json (content : String) : Option String :=
  let c := stripFences (pyStrip content.data)
  match c.findIdx? (fun ch => ch == lbrace) with
  | none => none
  | some start =>
    match c.reverse.findIdx? (fun ch => ch == rbrace) with
    | none => none
    | some rrev => some (String.mk ((c.drop start).take (c.length - rrev - start)))

/-- Replace the value at a key, or append the binding when the key is
absent: Python `d[k] = v` on the parsed JSON object. -/
def setKey (obj : List (String × JVal)) (k : String) (v : JVal) :
    List (String × JVal) :=
  if obj.any (fun p => p.1 == k) then
    obj.map (fun p => bif p.1 == k then (k, v) else p)
  else obj ++ [(k, v)]

/-- The `analysis_metadata` dict added to a successfully parsed AI response
(app.py lines 941-951). -/
def aiMetadata (model timestamp : String) (medsAnalyzed classesIdentified : Nat) :
    JVal :=
  JVal.obj
    [("model_used", JVal.str model),
     ("api_provider", JVal.str "groq"),
     ("analysis_timestamp", JVal.str timestamp),
     ("medications_analyzed", JVal.nat medsAnalyzed),
     ("drug_classes_identified", JVal.nat classesIdentified),
     ("patient_factors_considered",
       JVal.arr (["age", "gender", "allergies", "medical_conditions",
         "diagnosis", "vital_signs", "current_problems"].map JVal.str))]

/-- Outcome of the external call in `analyze_drug_interactions`:
the client was never initialized (no credential), the API call raised
(network error, non-2xx, timeout), or it returned a response body. -/
inductive ApiOutcome where
  | noCredential
  | apiError
  | response (content : String)

/-- What `analyze_drug_interactions` returns: the parsed AI JSON object
(with metadata added), or the fallback engine's result. -/
inductive AnalyzeResult where
  | ai (result : List (String × JVal))
  | fromFallback (r : FallbackResult)

/-- `AIAnalyzer.analyze_drug_interactions` (app.py lines 759-956).
`jparse` models `json.loads` restricted to object results: `none` covers
both a `json.JSONDecodeError` (caught at line 948) and a non-object parse
(the metadata assignment then raises `TypeError`, caught by the outer
`except` at line 953); either way the source falls back.  `model` and
`timestamp` are the configured model name and `datetime.now()`.  The
overall `none` models an uncaught exception (the fallback's `IndexError`
on an empty medication list escapes even the outer `except`, because the
retry in that handler re-raises it). -/
def analyze_drug_interactions (lookup : String → Option MedRow)
    (jparse : String → Option (List (String × JVal)))
    (model timestamp : String) (outcome : ApiOutcome)
    (medications : List MedItem) (patient_info : PatientInfo) :
    Option AnalyzeResult :=
  match outcome with
  | ApiOutcome.noCredential =>
    (enhanced_fallback_analysis lookup (FallbackInput.raw medications)
      patient_info).map AnalyzeResult.fromFallback
  | ApiOutcome.apiError =>
    let enhanced := get_enhanced_medication_data lookup medications
    (enhanced_fallback_analysis lookup (FallbackInput.enriched enhanced)
      patient_info).map AnalyzeResult.fromFallback
  | ApiOutcome.response content =>
    let enhanced := get_enhanced_medication_data lookup medications
    let drug_classes :=
      (enhanced.map (fun m => m.drug_class)).filter (fun c => c ≠ "Unknown")
    match extract_json content with
    | none =>
      (enhanced_fallback_analysis lookup (FallbackInput.enriched enhanced)
        patient_info).map AnalyzeResult.fromFallback
    | some jstr =>
      match jparse jstr with
      | none =>
        (enhanced_fallback_analysis lookup (FallbackInput.enriched enhanced)
          patient_info).map AnalyzeResult.fromFallback
      | some parsed =>
        some (AnalyzeResult.ai (setKey parsed "analysis_metadata"
          (aiMetadata model timestamp enhanced.length
            (dedupFirst drug_classes).length)))

/-! ### Concrete inputs used by counterexamples and witnesses -/

/-- A catalog lookup whose query always returns the empty result set
(medication absent from the catalog). -/
def noLookup : String → Option MedRow := fun _ => none

/-- A prescribed item named exactly "Warfarin". -/
def warfMed : MedItem :=
  { name := "Warfarin", dosage := "5mg", frequency := "once daily", duration := none }

/-- A prescribed item named exactly "Aspirin". -/
def aspMed : MedItem :=
  { name := "Aspirin", dosage := "81mg", frequency := "once daily", duration := none }

/-- A prescribed item named "Warfarin Sodium" (contains "warfarin" as a
substring but is not the exact string "warfarin" once lowercased). -/
def warfSodMed : MedItem :=
  { name := "Warfarin Sodium", dosage := "5mg", frequency := "once daily",
    duration := none }

/-- A prescribed item named "Amoxicillin". -/
def amoxMed : MedItem :=
  { name := "Amoxicillin", dosage := "500mg", frequency := "three times daily",
    duration := none }

/-- A prescribed item named "Lisinopril". -/
def lisMed : MedItem :=
  { name := "Lisinopril", dosage := "10mg", frequency := "once daily",
    duration := none }

/-- A prescribed item named "Enalapril". -/
def enaMed : MedItem :=
  { name := "Enalapril", dosage := "5mg", frequency := "once daily",
    duration := none }

/-- A prescribed item named "Ramipril". -/
def ramMed : MedItem :=
  { name := "Ramipril", dosage := "2.5mg", frequency := "once daily",
    duration := none }

/-- A prescribed item named "Potassium Chloride". -/
def kclMed : MedItem :=
  { name := "Potassium Chloride", dosage := "20mEq", frequency := "once daily",
    duration := none }

/-- A catalog row carrying only a drug class. -/
def rowWithClass (n c : String) : MedRow :=
  { name := n, generic_name := none, drug_class := some c,
    contraindications := none, interactions := none, side_effects := none,
    indications := none }

/-- A concrete catalog: three ACE inhibitors and one potassium salt. -/
def aceLookup : String → Option MedRow := fun s =>
  if s = "Lisinopril" ∨ s = "Enalapril" ∨ s = "Ramipril" then
    some (rowWithClass s "ACE Inhibitor")
  else if s = "Potassium Chloride" then some (rowWithClass s "Potassium")
  else none

/-- A catalog connection whose query raises on "Lisinopril" and returns an
empty result set otherwise. -/
def badLookupE : String → Except Unit (Option MedRow) := fun s =>
  if s = "Lisinopril" then Except.error () else Except.ok none

/-- A `json.loads` stand-in that always fails. -/
def jnone : String → Option (List (String × JVal)) := fun _ => none

/-! ### Shared helper lemmas and definitions for the statements -/

/-- The risk string of the fallback result, read back from its own fields:
transliterates `"moderate" if interactions or allergies else "low"`
(app.py line 1060). -/
theorem fallbackCore_overall_risk (meds : List EnhancedMed) (p : PatientInfo) :
    (fallbackCore meds p).overall_risk =
      if (fallbackCore meds p).interactions.isEmpty &&
          (fallbackCore meds p).allergies.isEmpty then "low" else "moderate" :=
  rfl

/-- All `i < j` index pairs of a list, in the order the Python double loop
`for i ...: for j in range(i+1, ...)` visits them. -/
def allPairs {α : Type} : List α → List (α × α)
  | [] => []
  | x :: rest => rest.map (fun y => (x, y)) ++ allPairs rest

/-- The failure modes of the external reasoning path enumerated by the
claim: no credential, transport error/timeout, response with no extractable
JSON, or JSON parse failure. -/
def apiFailure (jparse : String → Option (List (String × JVal))) :
    ApiOutcome → Prop
  | ApiOutcome.noCredential => True
  | ApiOutcome.apiError => True
  | ApiOutcome.response c =>
    match extract_json c with
    | none => True
    | some j => jparse j = none

/-- Project the fallback result out of the engine's overall return value. -/
def resultOfFallback : Option AnalyzeResult → Option FallbackResult
  | some (AnalyzeResult.fromFallback r) => some r
  | _ => none

/-- Project the parsed AI object out of the engine's overall return value. -/
def resultOfAi : Option AnalyzeResult → Option (List (String × JVal))
  | some (AnalyzeResult.ai obj) => some obj
  | _ => none

/-! ### C1 -/

/-- C1 counterexample: with medications ["Warfarin", "Aspirin"] (absent from
the catalog) the fallback result contains a "major"-severity interaction
entry, yet `overall_risk` is "moderate", not "high" as the claim requires. -/
theorem c1_counterexample :
    (fallbackCore (get_enhanced_medication_data noLookup [warfMed, aspMed])
        {}).interactions.any (fun e => e.severity == "major") = true ∧
    (fallbackCore (get_enhanced_medication_data noLookup [warfMed, aspMed])
        {}).overall_risk = "moderate" :=
  ⟨rfl, rfl⟩

/-- C1 amended: the fallback engine never returns `overall_risk = "high"`;
the risk is "moderate" whenever `interactions` or `allergies` is non-empty
(in particular when a "major" interaction was added), and "low" exactly
when both are empty. -/
theorem c1_amended (meds : List EnhancedMed) (p : PatientInfo) :
    (fallbackCore meds p).overall_risk ≠ "high" ∧
    ((fallbackCore meds p).interactions ≠ [] ∨
        (fallbackCore meds p).allergies ≠ [] →
      (fallbackCore meds p).overall_risk = "moderate") ∧
    ((fallbackCore meds p).interactions = [] →
      (fallbackCore meds p).allergies = [] →
      (fallbackCore meds p).overall_risk = "low") := by
  have h := fallbackCore_overall_risk meds p
  refine ⟨?_, ?_, ?_⟩
  · rw [h]; split <;> decide
  · intro hne
    rw [h]
    have hf : ((fallbackCore meds p).interactions.isEmpty &&
        (fallbackCore meds p).allergies.isEmpty) = false := by
      rcases hne with hi | ha
      · have hie : (fallbackCore meds p).interactions.isEmpty = false := by
          cases hl : (fallbackCore meds p).interactions with
          | nil => exact absurd hl hi
          | cons a l => rfl
        rw [hie, Bool.false_and]
      · have hae : (fallbackCore meds p).allergies.isEmpty = false := by
          cases hl : (fallbackCore meds p).allergies with
          | nil => exact absurd hl ha
          | cons a l => rfl
        rw [hae, Bool.and_false]
    rw [hf]
    rfl
  · intro h1 h2
    rw [h, h1, h2]
    rfl

/-- C1 witness: the amended statement evaluated at the Warfarin/Aspirin
input (non-empty interactions, risk "moderate"), at an allergy-only input
(empty interactions, non-empty allergies, risk "moderate"), and at the
empty enriched list (risk "low"). -/
theorem c1_witness :
    (fallbackCore (get_enhanced_medication_data noLookup [warfMed, aspMed])
        {}).overall_risk = "moderate" ∧
    (fallbackCore (get_enhanced_medication_data noLookup [amoxMed])
        { allergies := some "Penicillin" }).overall_risk = "moderate" ∧
    (fallbackCore [] {}).overall_risk = "low" :=
  ⟨(c1_amended (get_enhanced_medication_data noLookup [warfMed, aspMed]) {}).2.1
      (Or.inl (by decide)),
    (c1_amended (get_enhanced_medication_data noLookup [amoxMed])
        { allergies := some "Penicillin" }).2.1 (Or.inr (by decide)),
    (c1_amended [] {}).2.2 rfl rfl⟩

/-! ### C2 -/

/-- C2: calling the fallback analysis with zero medications does not return
a well-formed empty result — it evaluates `medications[0]` and raises
`IndexError` (modelled as `none`), for raw and pre-enriched input alike. -/
theorem c2_theorem (lookup : String → Option MedRow) (p : PatientInfo) :
    enhanced_fallback_analysis lookup (FallbackInput.raw []) p = none ∧
    enhanced_fallback_analysis lookup (FallbackInput.enriched []) p = none :=
  ⟨rfl, rfl⟩

/-! ### C10 -/

/-- C10: every result the fallback engine actually returns has empty
`contraindications`, `monitoring` and `alternatives` lists, whatever the
medications and patient context. -/
theorem c10_theorem (lookup : String → Option MedRow) (input : FallbackInput)
    (p : PatientInfo) (r : FallbackResult)
    (h : enhanced_fallback_analysis lookup input p = some r) :
    r.contraindications = [] ∧ r.monitoring = [] ∧ r.alternatives = [] := by
  cases input with
  | raw ms =>
    cases ms with
    | nil => exact absurd h (by simp [enhanced_fallback_analysis])
    | cons m ms =>
      have hr : fallbackCore (get_enhanced_medication_data lookup (m :: ms)) p = r := by
        simpa [enhanced_fallback_analysis] using h
      rw [← hr]
      exact ⟨rfl, rfl, rfl⟩
  | enriched ms =>
    cases ms with
    | nil => exact absurd h (by simp [enhanced_fallback_analysis])
    | cons m ms =>
      have hr : fallbackCore (m :: ms) p = r := by
        simpa [enhanced_fallback_analysis] using h
      rw [← hr]
      exact ⟨rfl, rfl, rfl⟩

/-- C10 witness: the theorem applied to a concrete single-medication call. -/
theorem c10_witness :
    (fallbackCore (get_enhanced_medication_data noLookup [aspMed]) {}).contraindications = [] ∧
    (fallbackCore (get_enhanced_medication_data noLookup [aspMed]) {}).monitoring = [] ∧
    (fallbackCore (get_enhanced_medication_data noLookup [aspMed]) {}).alternatives = [] :=
  c10_theorem noLookup (FallbackInput.raw [aspMed]) {}
    (fallbackCore (get_enhanced_medication_data noLookup [aspMed]) {}) rfl

/-! ### C3 -/

/-- C3 counterexample: three ACE-inhibitor medications plus one
potassium-class medication produce three {ACE Inhibitor, Potassium}
interaction entries — one per realizing `i < j` pair — not at most one. -/
theorem c3_counterexample :
    ((fallbackCore
        (get_enhanced_medication_data aceLookup [lisMed, enaMed, ramMed, kclMed])
        {}).interactions.countP
      (fun e => e.drug_classes == ["ACE Inhibitor", "Potassium"])) = 3 := by
  decide

/-- C3 amended: the class-pair step emits one entry for every `i < j`
medication pair whose (sorted) class pair is a key of the table, with no
dedup: the entry list is the table match over all index pairs, so a class
pair realized by k medication pairs appears k times. -/
theorem c3_amended (meds : List EnhancedMed) :
    classPairInteractions meds =
      (allPairs meds).filterMap (fun pr => pairInteraction pr.1 pr.2) ∧
    (classPairInteractions meds).length =
      (allPairs meds).countP (fun pr => (pairInteraction pr.1 pr.2).isSome) := by
  have key : ∀ l : List EnhancedMed,
      classPairInteractions l =
        (allPairs l).filterMap (fun pr => pairInteraction pr.1 pr.2) := by
    intro l
    induction l with
    | nil => rfl
    | cons m rest ih =>
      simp only [classPairInteractions, allPairs, List.filterMap_append,
        List.filterMap_map, ih]
      rfl
  refine ⟨key meds, ?_⟩
  rw [key meds]
  generalize allPairs meds = prs
  induction prs with
  | nil => rfl
  | cons pr prs ih =>
    cases hpr : pairInteraction pr.1 pr.2 with
    | none =>
      simp [List.filterMap_cons, List.countP_cons, hpr, ih]
    | some e =>
      simp [List.filterMap_cons, List.countP_cons, hpr, ih]

/-! ### C6 -/

/-- C6 counterexample: a catalog-lookup error on the first of two
medications aborts the whole enrichment call (the exception propagates),
instead of degrading that medication to the placeholder and enriching the
second one. -/
theorem c6_counterexample :
    get_enhanced_medication_dataE badLookupE [lisMed, aspMed] =
      Except.error () :=
  rfl

/-- C6 amended: only a lookup *miss* (empty query result) degrades a
medication to the placeholder without disturbing the rest — when no lookup
raises, the fallible enrichment agrees with the per-item pure enrichment —
whereas a lookup *error* on any medication of the batch, at whatever
position, aborts the entire enrichment call. -/
theorem c6_amended :
    (∀ (lookup : String → Option MedRow) (meds : List MedItem),
      get_enhanced_medication_dataE (fun s => Except.ok (lookup s)) meds =
        Except.ok (get_enhanced_medication_data lookup meds)) ∧
    (∀ (lookupE : String → Except Unit (Option MedRow)) (meds : List MedItem),
      (∃ m ∈ meds, lookupE (stripStrength m.name) = Except.error ()) →
      get_enhanced_medication_dataE lookupE meds = Except.error ()) := by
  constructor
  · intro lookup meds
    induction meds with
    | nil => rfl
    | cons m ms ih =>
      simp only [get_enhanced_medication_dataE, get_enhanced_medication_data, ih]
  · intro lookupE meds
    induction meds with
    | nil =>
      intro hex
      rcases hex with ⟨m, hm, _⟩
      exact absurd hm (List.not_mem_nil m)
    | cons m ms ih =>
      intro hex
      rcases hex with ⟨m', hm', herr⟩
      rcases List.mem_cons.mp hm' with heq | htail
      · subst heq
        simp only [get_enhanced_medication_dataE, herr]
      · have htl : get_enhanced_medication_dataE lookupE ms = Except.error () :=
          ih ⟨m', htail, herr⟩
        cases hl : lookupE (stripStrength m.name) with
        | error e =>
          cases e
          simp only [get_enhanced_medication_dataE, hl]
        | ok row =>
          simp only [get_enhanced_medication_dataE, hl, htl]

/-- C6 witness: the amended statement at concrete inputs — a lookup raising
on the *second* medication of a two-element batch aborts the whole call,
and an error-free lookup over a one-element batch returns the pure
enrichment. -/
theorem c6_witness :
    get_enhanced_medication_dataE badLookupE [aspMed, lisMed] =
      Except.error () ∧
    get_enhanced_medication_dataE (fun s => Except.ok (noLookup s)) [aspMed] =
      Except.ok (get_enhanced_medication_data noLookup [aspMed]) :=
  ⟨c6_amended.2 badLookupE [aspMed, lisMed]
      ⟨lisMed, List.mem_cons_of_mem _ (List.mem_cons_self _ _), rfl⟩,
    c6_amended.1 noLookup [aspMed]⟩

/-! ### C7 -/

/-- Default used only to express positional access without proofs. -/
def defaultMedItem : MedItem :=
  { name := "", dosage := "", frequency := "", duration := none }

/-- Default used only to express positional access without proofs. -/
def defaultEnhanced : EnhancedMed :=
  { name := "", generic_name := "", drug_class := "", dosage := "",
    frequency := "", duration := "", known_interactions := "",
    contraindications := "", indications := "" }

/-- `getD` through a `map`, at an in-range index. -/
theorem getD_map_lt {α β : Type} (f : α → β) :
    ∀ (l : List α) (i : Nat), i < l.length → ∀ (d : α) (d' : β),
      (l.map f).getD i d' = f (l.getD i d)
  | [], i, h => absurd h (by simp)
  | a :: l, 0, _ => fun d d' => rfl
  | a :: l, i + 1, h => fun d d' =>
    getD_map_lt f l i (by simpa using h) d d'

/-- C7: enrichment is a one-to-one, order-preserving total map — one output
record per input item, the i-th output enriching the i-th input — and when
the catalog has no row for the stripped name, that record carries the
original name, drug class "Unknown", and the explicit non-null marker
strings for the free-text fields. -/
theorem c7_theorem (lookup : String → Option MedRow) (meds : List MedItem) :
    (get_enhanced_medication_data lookup meds).length = meds.length ∧
    get_enhanced_medication_data lookup meds =
      meds.map (fun m => enrichRow m (lookup (stripStrength m.name))) ∧
    (∀ i, i < meds.length →
      lookup (stripStrength (meds.getD i defaultMedItem).name) = none →
      ((get_enhanced_medication_data lookup meds).getD i defaultEnhanced).name =
        (meds.getD i defaultMedItem).name ∧
      ((get_enhanced_medication_data lookup meds).getD i defaultEnhanced).drug_class =
        "Unknown" ∧
      ((get_enhanced_medication_data lookup meds).getD i defaultEnhanced).known_interactions =
        "Database not available" ∧
      ((get_enhanced_medication_data lookup meds).getD i defaultEnhanced).contraindications =
        "Database not available" ∧
      ((get_enhanced_medication_data lookup meds).getD i defaultEnhanced).indications =
        "Not specified") := by
  have hmap : get_enhanced_medication_data lookup meds =
      meds.map (fun m => enrichRow m (lookup (stripStrength m.name))) := by
    induction meds with
    | nil => rfl
    | cons m ms ih => simp only [get_enhanced_medication_data, List.map_cons, ih]
  refine ⟨by rw [hmap]; exact List.length_map meds _, hmap, ?_⟩
  intro i hi hnone
  have h1 : (get_enhanced_medication_data lookup meds).getD i defaultEnhanced =
      enrichRow (meds.getD i defaultMedItem)
        (lookup (stripStrength (meds.getD i defaultMedItem).name)) := by
    rw [hmap]
    exact getD_map_lt _ meds i hi defaultMedItem defaultEnhanced
  rw [hnone] at h1
  rw [h1]
  exact ⟨rfl, rfl, rfl, rfl, rfl⟩

/-- C7 witness: the theorem applied to a single catalog-miss medication. -/
theorem c7_witness :
    (get_enhanced_medication_data noLookup [aspMed]).length = 1 ∧
    ((get_enhanced_medication_data noLookup [aspMed]).getD 0 defaultEnhanced).name =
      "Aspirin" ∧
    ((get_enhanced_medication_data noLookup [aspMed]).getD 0 defaultEnhanced).drug_class =
      "Unknown" ∧
    ((get_enhanced_medication_data noLookup [aspMed]).getD 0 defaultEnhanced).known_interactions =
      "Database not available" := by
  obtain ⟨hl, hmap, hidx⟩ := c7_theorem noLookup [aspMed]
  obtain ⟨hn, hc, hki, hct, hind⟩ := hidx 0 (by decide) rfl
  exact ⟨hl, hn, hc, hki⟩

/-! ### C4 -/

/-- Looking up a key in a map-rewrite that replaced that key's value. -/
theorem lookup_map_replace (k : String) (v : JVal) :
    ∀ (obj : List (String × JVal)), obj.any (fun q => q.1 == k) = true →
      List.lookup k (obj.map (fun q => bif q.1 == k then (k, v) else q)) = some v
  | [], h => by simp at h
  | q :: rest, h => by
    by_cases hq : q.1 = k
    · have hq2 : (q.1 == k) = true := by simp [hq]
      simp [List.lookup, hq2]
    · have hq2 : (q.1 == k) = false := beq_eq_false_iff_ne.mpr hq
      have h2 : rest.any (fun r => r.1 == k) = true := by
        rw [List.any_cons, hq2] at h
        simpa using h
      have hk : (k == q.1) = false :=
        beq_eq_false_iff_ne.mpr (fun he => hq he.symm)
      simp [List.lookup, hq2, hk, lookup_map_replace k v rest h2]

/-- Looking up a key appended to a map that did not contain it. -/
theorem lookup_append_missing (k : String) (v : JVal) :
    ∀ (obj : List (String × JVal)), obj.any (fun q => q.1 == k) = false →
      List.lookup k (obj ++ [(k, v)]) = some v
  | [], _ => by simp [List.lookup]
  | q :: rest, h => by
    rw [List.any_cons] at h
    obtain ⟨hq, h2⟩ := Bool.or_eq_false_iff.mp h
    have hk : (k == q.1) = false :=
      beq_eq_false_iff_ne.mpr (fun he => (beq_eq_false_iff_ne.mp hq) he.symm)
    simp [List.lookup, hk, lookup_append_missing k v rest h2]

/-- Python's `d[k] = v` leaves `d[k]` equal to `v`. -/
theorem lookup_setKey (obj : List (String × JVal)) (k : String) (v : JVal) :
    List.lookup k (setKey obj k v) = some v := by
  unfold setKey
  split
  case isTrue h => exact lookup_map_replace k v obj h
  case isFalse h =>
    have hb : obj.any (fun q => q.1 == k) = false := by
      cases hval : obj.any (fun q => q.1 == k)
      · rfl
      · exact absurd hval h
    exact lookup_append_missing k v obj hb

/-- C4 counterexample: on a model response with no extractable JSON object,
the engine does return the fallback result without raising, but that
result's `analysis_metadata` has no `analysis_source` key at all — the
pathway tag is stored under `analysis_type` instead. -/
theorem c4_counterexample :
    (resultOfFallback (analyze_drug_interactions noLookup jnone "gemma2-9b-it"
        "2024-01-01T00:00:00" (ApiOutcome.response "Sorry, I cannot answer.")
        [aspMed] {})).map
      (fun r => List.lookup "analysis_source" r.analysis_metadata.toDict) =
      some none ∧
    (resultOfFallback (analyze_drug_interactions noLookup jnone "gemma2-9b-it"
        "2024-01-01T00:00:00" (ApiOutcome.response "Sorry, I cannot answer.")
        [aspMed] {})).map
      (fun r => List.lookup "analysis_type" r.analysis_metadata.toDict) =
      some (some (JVal.str "fallback")) :=
  ⟨rfl, rfl⟩

/-- C4 amended: for every enumerated failure of the external reasoning path
and every non-empty medication list, `analyze_drug_interactions` raises
nothing and returns the fallback result, whose `analysis_metadata` carries
the pathway tag under the key `analysis_type` (not `analysis_source`) with
value "fallback". -/
theorem c4_amended (lookup : String → Option MedRow)
    (jparse : String → Option (List (String × JVal))) (model timestamp : String)
    (outcome : ApiOutcome) (meds : List MedItem) (p : PatientInfo)
    (hne : meds ≠ []) (hfail : apiFailure jparse outcome) :
    (resultOfFallback (analyze_drug_interactions lookup jparse model timestamp
        outcome meds p)).map (fun r => r.analysis_metadata.analysis_type) =
      some "fallback" := by
  cases meds with
  | nil => exact absurd rfl hne
  | cons m ms =>
    cases outcome with
    | noCredential => rfl
    | apiError => rfl
    | response c =>
      cases hej : extract_json c with
      | none =>
        simp only [analyze_drug_interactions, hej]
        rfl
      | some j =>
        have hjp : jparse j = none := by
          have := hfail
          simp only [apiFailure, hej] at this
          exact this
        simp only [analyze_drug_interactions, hej, hjp]
        rfl

/-- C4 witness: the amended statement at the missing-credential outcome
with one medication. -/
theorem c4_witness :
    (resultOfFallback (analyze_drug_interactions noLookup jnone "gemma2-9b-it"
        "2024-01-01T00:00:00" ApiOutcome.noCredential [aspMed] {})).map
      (fun r => r.analysis_metadata.analysis_type) = some "fallback" :=
  c4_amended noLookup jnone "gemma2-9b-it" "2024-01-01T00:00:00"
    ApiOutcome.noCredential [aspMed] {} (by simp) trivial

/-! ### C5 -/

/-- C5 counterexample: a concrete fallback result has no
`condition_specific_concerns` key at all (and no
`vital_signs_considerations` key), contradicting the claim that every
result contains every canonical list field as a present key. -/
theorem c5_counterexample :
    List.lookup "condition_specific_concerns"
      (FallbackResult.toDict
        (fallbackCore (get_enhanced_medication_data noLookup [aspMed]) {})) =
      none ∧
    List.lookup "vital_signs_considerations"
      (FallbackResult.toDict
        (fallbackCore (get_enhanced_medication_data noLookup [aspMed]) {})) =
      none :=
  ⟨rfl, rfl⟩

/-- Looking up a different key is unaffected by the key-replacing map of
`setKey`. -/
theorem lookup_map_setKey_ne (k k2 : String) (v : JVal) (hne : k ≠ k2) :
    ∀ (obj : List (String × JVal)),
      List.lookup k (obj.map (fun q => bif q.1 == k2 then (k2, v) else q)) =
        List.lookup k obj
  | [] => rfl
  | q :: rest => by
    have hk : (k == k2) = false := beq_eq_false_iff_ne.mpr hne
    by_cases hq : q.1 = k2
    · have hq2 : (q.1 == k2) = true := by simp [hq]
      have hk2 : (k == q.1) = false := by rw [hq]; exact hk
      simp [List.lookup, hq2, hk, hk2, lookup_map_setKey_ne k k2 v hne rest]
    · have hq2 : (q.1 == k2) = false := beq_eq_false_iff_ne.mpr hq
      simp [List.lookup, hq2, lookup_map_setKey_ne k k2 v hne rest]

/-- Looking up a different key is unaffected by appending a new binding. -/
theorem lookup_append_single_ne (k k2 : String) (v : JVal) (hne : k ≠ k2) :
    ∀ (obj : List (String × JVal)),
      List.lookup k (obj ++ [(k2, v)]) = List.lookup k obj
  | [] => by
    have hk : (k == k2) = false := beq_eq_false_iff_ne.mpr hne
    simp [List.lookup, hk]
  | q :: rest => by
    simp [List.lookup, lookup_append_single_ne k k2 v hne rest]

/-- Python's `d[k2] = v` leaves every other key's value unchanged. -/
theorem lookup_setKey_ne (obj : List (String × JVal)) (k k2 : String)
    (v : JVal) (hne : k ≠ k2) :
    List.lookup k (setKey obj k2 v) = List.lookup k obj := by
  unfold setKey
  split
  · exact lookup_map_setKey_ne k k2 v hne obj
  · exact lookup_append_single_ne k k2 v hne obj

/-- C5 amended: every fallback result presents `interactions`, `allergies`,
`contraindications`, `alternatives`, `monitoring` and `drug_class_analysis`
as present list keys (the latter three always the empty list), but never
contains the `condition_specific_concerns` or `vital_signs_considerations`
keys.  On the AI path, a successfully extracted and parsed model object is
returned with exactly its own keys plus `analysis_metadata`: that key is
set, and every other key — present or absent — passes through unchanged,
so a list field the model omitted stays missing. -/
theorem c5_amended (meds : List EnhancedMed) (p : PatientInfo)
    (lookup : String → Option MedRow)
    (jparse : String → Option (List (String × JVal)))
    (model timestamp content j : String) (parsed : List (String × JVal))
    (mitems : List MedItem)
    (hj : extract_json content = some j) (hp : jparse j = some parsed) :
    List.lookup "contraindications"
      (FallbackResult.toDict (fallbackCore meds p)) = some (JVal.arr []) ∧
    List.lookup "alternatives"
      (FallbackResult.toDict (fallbackCore meds p)) = some (JVal.arr []) ∧
    List.lookup "monitoring"
      (FallbackResult.toDict (fallbackCore meds p)) = some (JVal.arr []) ∧
    (List.lookup "interactions"
      (FallbackResult.toDict (fallbackCore meds p))).isSome = true ∧
    (List.lookup "allergies"
      (FallbackResult.toDict (fallbackCore meds p))).isSome = true ∧
    (List.lookup "drug_class_analysis"
      (FallbackResult.toDict (fallbackCore meds p))).isSome = true ∧
    (List.lookup "overall_risk"
      (FallbackResult.toDict (fallbackCore meds p))).isSome = true ∧
    (List.lookup "summary"
      (FallbackResult.toDict (fallbackCore meds p))).isSome = true ∧
    (List.lookup "analysis_metadata"
      (FallbackResult.toDict (fallbackCore meds p))).isSome = true ∧
    List.lookup "condition_specific_concerns"
      (FallbackResult.toDict (fallbackCore meds p)) = none ∧
    List.lookup "vital_signs_considerations"
      (FallbackResult.toDict (fallbackCore meds p)) = none ∧
    resultOfAi (analyze_drug_interactions lookup jparse model timestamp
        (ApiOutcome.response content) mitems p) =
      some (setKey parsed "analysis_metadata"
        (aiMetadata model timestamp
          (get_enhanced_medication_data lookup mitems).length
          (dedupFirst (((get_enhanced_medication_data lookup mitems).map
            (fun m => m.drug_class)).filter
              (fun c => c ≠ "Unknown"))).length)) ∧
    (∀ v : JVal, List.lookup "analysis_metadata"
        (setKey parsed "analysis_metadata" v) = some v) ∧
    (∀ (v : JVal) (k : String), k ≠ "analysis_metadata" →
      List.lookup k (setKey parsed "analysis_metadata" v) =
        List.lookup k parsed) := by
  refine ⟨rfl, rfl, rfl, rfl, rfl, rfl, rfl, rfl, rfl, rfl, rfl, ?_,
    fun v => lookup_setKey parsed "analysis_metadata" v,
    fun v k hk => lookup_setKey_ne parsed k "analysis_metadata" v hk⟩
  simp only [analyze_drug_interactions, hj, hp]
  rfl

/-- C5 witness: a concrete AI-path run — the model returns the bare object
with no keys, the engine extracts and parses it, and the returned result
still has no `condition_specific_concerns` key (nothing was defaulted in),
while `analysis_metadata` is present. -/
theorem c5_witness :
    (resultOfAi (analyze_drug_interactions noLookup
        (fun _ => some ([] : List (String × JVal))) "gemma2-9b-it"
        "2024-01-01T00:00:00" (ApiOutcome.response "\x7b\x7d") [aspMed]
        {})).map (List.lookup "condition_specific_concerns") = some none := by
  obtain ⟨h1, h2, h3, h4, h5, h6, h7, h8, h9, h10, h11, hb, hmeta, hpass⟩ :=
    c5_amended [] {} noLookup (fun _ => some ([] : List (String × JVal)))
      "gemma2-9b-it" "2024-01-01T00:00:00" "\x7b\x7d" "\x7b\x7d" []
      [aspMed] rfl rfl
  rw [hb]
  exact congrArg some (hpass _ "condition_specific_concerns" (by decide))

/-! ### C8 -/

/-- C8 counterexample: "Warfarin Sodium" contains "warfarin"
(case-insensitively) and "Aspirin" contains "aspirin", yet the fallback
emits no interaction at all — the source tests `'warfarin' in med_names`,
which is exact list membership of the lowercased name, not a substring
test. -/
theorem c8_counterexample :
    strContains (pyLower warfSodMed.name) "warfarin" = true ∧
    strContains (pyLower aspMed.name) "aspirin" = true ∧
    (fallbackCore (get_enhanced_medication_data noLookup [warfSodMed, aspMed])
        {}).interactions = [] :=
  ⟨rfl, rfl, rfl⟩

/-- C8 amended: whenever some medication's lowercased name is *exactly*
"warfarin" and some medication's name contains "aspirin" or "ibuprofen"
(case-insensitively), the fallback result includes a "major"-severity
interaction entry, independent of the class-pair table. -/
theorem c8_amended (meds : List EnhancedMed) (p : PatientInfo)
    (h1 : (meds.map (fun m => pyLower m.name)).contains "warfarin" = true)
    (h2 : (meds.map (fun m => pyLower m.name)).any
      (fun n => strContains n "aspirin" || strContains n "ibuprofen") = true) :
    ∃ e, e ∈ (fallbackCore meds p).interactions ∧ e.severity = "major" := by
  have hint : (fallbackCore meds p).interactions =
      classPairInteractions meds ++
        warfarinInteractions (meds.map (fun m => pyLower m.name)) := rfl
  have hw : warfarinInteractions (meds.map (fun m => pyLower m.name)) =
      [{ drugs := ["Warfarin", "Aspirin/NSAIDs"]
         drug_classes := ["Anticoagulant", "Anti-inflammatory"]
         severity := "major"
         description := "Increased bleeding risk due to additive anticoagulant effects"
         recommendation := "Monitor INR closely, consider gastroprotection" }] := by
    unfold warfarinInteractions
    rw [h1, h2]
    rfl
  rw [hint, hw]
  exact ⟨_, List.mem_append_right _ (List.mem_singleton.mpr rfl), rfl⟩

/-- C8 witness: the amended statement at the exact-name input
["Warfarin", "Aspirin"]. -/
theorem c8_witness :
    (fallbackCore (get_enhanced_medication_data noLookup [warfMed, aspMed])
        {}).interactions.any (fun e => e.severity == "major") = true := by
  obtain ⟨e, he, hs⟩ :=
    c8_amended (get_enhanced_medication_data noLookup [warfMed, aspMed]) {}
      (by decide) (by decide)
  refine List.any_eq_true.mpr ⟨e, he, ?_⟩
  rw [hs]
  exact beq_self_eq_true "major"

/-! ### C9 -/

/-- Filtering the sulfa-branch output for "Penicillin"-allergy entries
always yields the empty list, whichever way the sulfa test went. -/
theorem filter_pen_sulfa_branch (b : Bool) (med : EnhancedMed) :
    (if b = true then
      [{ drug := med.name
         allergy := "Sulfa drugs"
         risk := "Potential allergic reaction - contraindicated" }]
    else ([] : List AllergyEntry)).filter
      (fun e => e.allergy == "Penicillin") = [] := by
  cases b
  · rfl
  · rfl

/-- Filtering the penicillin-branch output for "Penicillin"-allergy entries
keeps it unchanged. -/
theorem filter_pen_pen_branch (b : Bool) (med : EnhancedMed) :
    (if b = true then
      [{ drug := med.name
         allergy := "Penicillin"
         risk := "Potential allergic reaction - contraindicated" }]
    else ([] : List AllergyEntry)).filter
      (fun e => e.allergy == "Penicillin") =
      (if b = true then
        [{ drug := med.name
           allergy := "Penicillin"
           risk := "Potential allergic reaction - contraindicated" }]
      else []) := by
  cases b
  · rfl
  · rfl

/-- The penicillin-matched part of the allergy records for one medication:
one entry exactly when the name contains a penicillin-family term, given
that the patient's allergy text mentions penicillin. -/
theorem filter_pen_allergyEntriesFor (pa : String)
    (hpen : strContains pa "penicillin" = true) (med : EnhancedMed) :
    (allergyEntriesFor pa med).filter (fun e => e.allergy == "Penicillin") =
      if (["penicillin", "amoxicillin", "ampicillin"].any
          (fun t => strContains (pyLower med.name) t)) = true then
        [{ drug := med.name
           allergy := "Penicillin"
           risk := "Potential allergic reaction - contraindicated" }]
      else [] := by
  unfold allergyEntriesFor
  rw [List.filter_append, hpen, Bool.true_and, filter_pen_pen_branch,
    filter_pen_sulfa_branch, List.append_nil]

/-- C9: when the patient's allergy text contains "penicillin"
(case-insensitively), the "Penicillin"-allergy entries of the fallback
result are, in order, exactly one per medication whose name contains
"penicillin", "amoxicillin" or "ampicillin", each naming that medication. -/
theorem c9_theorem (meds : List EnhancedMed) (p : PatientInfo)
    (hpen : strContains (pyLower (p.allergies.getD "")) "penicillin" = true) :
    ((fallbackCore meds p).allergies.filter
        (fun e => e.allergy == "Penicillin")).map (fun e => e.drug) =
      (meds.filter (fun m => ["penicillin", "amoxicillin", "ampicillin"].any
        (fun t => strContains (pyLower m.name) t))).map (fun m => m.name) := by
  show ((allergyChecks (pyLower (p.allergies.getD "")) meds).filter
      (fun e => e.allergy == "Penicillin")).map (fun e => e.drug) =
    (meds.filter (fun m => ["penicillin", "amoxicillin", "ampicillin"].any
      (fun t => strContains (pyLower m.name) t))).map (fun m => m.name)
  induction meds with
  | nil => rfl
  | cons m rest ih =>
    have hstep : allergyChecks (pyLower (p.allergies.getD "")) (m :: rest) =
        allergyEntriesFor (pyLower (p.allergies.getD "")) m ++
          allergyChecks (pyLower (p.allergies.getD "")) rest := rfl
    rw [hstep, List.filter_append, List.map_append,
      filter_pen_allergyEntriesFor _ hpen m]
    by_cases hm : (["penicillin", "amoxicillin", "ampicillin"].any
        (fun t => strContains (pyLower m.name) t)) = true
    · rw [if_pos hm]
      have hf : (m :: rest).filter
          (fun x => ["penicillin", "amoxicillin", "ampicillin"].any
            (fun t => strContains (pyLower x.name) t)) =
          m :: rest.filter (fun x => ["penicillin", "amoxicillin", "ampicillin"].any
            (fun t => strContains (pyLower x.name) t)) :=
        List.filter_cons_of_pos hm
      rw [hf, List.map_cons, ih]
      rfl
    · rw [if_neg hm]
      have hf : (m :: rest).filter
          (fun x => ["penicillin", "amoxicillin", "ampicillin"].any
            (fun t => strContains (pyLower x.name) t)) =
          rest.filter (fun x => ["penicillin", "amoxicillin", "ampicillin"].any
            (fun t => strContains (pyLower x.name) t)) :=
        List.filter_cons_of_neg hm
      rw [hf, ih]
      rfl

/-- C9 witness: patient allergies "Penicillin" with the single medication
"Amoxicillin" yields exactly one allergy entry, and it references
"Amoxicillin". -/
theorem c9_witness :
    ((fallbackCore (get_enhanced_medication_data noLookup [amoxMed])
        { allergies := some "Penicillin" }).allergies.filter
      (fun e => e.allergy == "Penicillin")).map (fun e => e.drug) =
      ["Amoxicillin"] ∧
    (fallbackCore (get_enhanced_medication_data noLookup [amoxMed])
        { allergies := some "Penicillin" }).allergies.length = 1 := by
  constructor
  · rw [c9_theorem (get_enhanced_medication_data noLookup [amoxMed])
      { allergies := some "Penicillin" } (by decide)]
    decide
  · decide
